import Mathlib

/-!
Verification of the outreach/follow-up engine of a lead-outreach CRM backend.

The development is a shallow embedding of the JavaScript sources
(`src/backend/server.js` and the two server variants in `src/unnamed/part_000`):
pure string manipulation is translated to functions over `List Char`/`String`,
the relational store is explicit state (`List Lead`, `List LogEntry`), and the
email transport is an oracle parameter (`SendOutcome`).  Timestamps are
abstracted as naturals ordered like the ISO strings the code produces.
-/

set_option maxHeartbeats 1000000

/-! ## Generic string helpers (JS semantics over `List Char`) -/

/-- Boolean test: `pat` is a prefix of `l` (argument order: pattern first). -/
def startsWithChars : List Char → List Char → Bool
  | [], _ => true
  | _ :: _, [] => false
  | a :: as, b :: bs => a == b && startsWithChars as bs

/-- Boolean test: `pat` occurs contiguously inside `l`. -/
def containsChars (pat : List Char) : List Char → Bool
  | [] => startsWithChars pat []
  | b :: bs => startsWithChars pat (b :: bs) || containsChars pat bs

/-- Substring test on strings, `strContains s pat = true` iff `pat` occurs in `s`. -/
def strContains (s pat : String) : Bool := containsChars pat.data s.data

/-- Prefix test on strings, `strStartsWith s pre = true` iff `s` begins with `pre`. -/
def strStartsWith (s pre : String) : Bool := startsWithChars pre.data s.data

/-- JavaScript `String.prototype.toLowerCase` (character-wise lowering). -/
def jsToLower (s : String) : String := String.mk (s.data.map Char.toLower)

/-- The characters of `l` strictly before the first `' '` (JS `l.split(' ')[0]`). -/
def takeBeforeSpace : List Char → List Char
  | [] => []
  | c :: cs => if c == ' ' then [] else c :: takeBeforeSpace cs

/-- JavaScript `s.split(' ')[0]`: the part of `s` before the first space
character (the whole of `s` when it contains no space, `""` when `s` starts
with a space or is empty). -/
def jsFirstSpaceToken (s : String) : String := String.mk (takeBeforeSpace s.data)

/-- The first whitespace-delimited token of `s`, following the claim wording
"the first whitespace-delimited token of the lead's name": drop leading
whitespace, then take the maximal run of non-whitespace characters.  This
definition follows the specification's words and is compared against the
code's `jsFirstSpaceToken`. -/
def firstWhitespaceToken (s : String) : String :=
  String.mk ((s.data.dropWhile Char.isWhitespace).takeWhile (fun c => !c.isWhitespace))

/-- JavaScript `String.prototype.trim` over the character list. -/
def trimChars (l : List Char) : List Char :=
  ((l.dropWhile Char.isWhitespace).reverse.dropWhile Char.isWhitespace).reverse

/-- JavaScript `String.prototype.trim`. -/
def trimStr (s : String) : String := String.mk (trimChars s.data)

/-- JavaScript truthiness of a possibly-absent string: `undefined`/`null` and
`""` are falsy, every other string is truthy. -/
def truthy : Option String → Bool
  | none => false
  | some s => s != ""

/-- The string carried by an optional value (`""` for an absent one). -/
def getStr (o : Option String) : String := o.getD ""

/-- JavaScript `o || d` on a possibly-absent string: `d` exactly when `o` is
falsy (absent or empty). -/
def strOr (o : Option String) (d : String) : String :=
  if truthy o then getStr o else d

/-! ## Data model

`Lead` mirrors a row of the `leads` table (fields that the send paths read);
`LogEntry` mirrors a row of the append-only `email_log` table.  All free-form
fields are `Option String` because the JS rows may lack any of them. -/

structure Lead where
  id : Nat
  email : Option String
  firstName : Option String
  lastName : Option String
  name : Option String
  address : Option String
  type : Option String
  last_contacted_date : Option Nat
  status : Option String
deriving DecidableEq

structure LogEntry where
  email : Option String
  name : Option String
  address : Option String
  type : Option String
  subject : String
  sent_at : Nat
  status : String
deriving DecidableEq

/-- Sender identity: the `{yourName, yourCompany, yourPhone}` config object
after the handlers' defaulting. -/
structure SenderConfig where
  yourName : String
  yourCompany : String
  yourPhone : String
deriving DecidableEq

/-- The handlers' defaulting of the request-body sender fields:
`yourName || 'Dylan Bennett'`, etc. -/
def mkSenderConfig (n c p : Option String) : SenderConfig :=
  { yourName := strOr n "Dylan Bennett",
    yourCompany := strOr c "ABC Real Estate",
    yourPhone := strOr p "(302) 922-4238" }

/-- One entry of the template catalog: a subject line and a body generator
of (firstName, address, yourName, yourCompany, yourPhone). -/
structure Template where
  subject : String
  body : String → String → String → String → String → String

/-! ## Template catalog (`EMAIL_TEMPLATES`)

The five templates of `src/backend/server.js`; the `src/unnamed/part_000`
variants share four of them and differ only in the `divorce` body (no P.S.
paragraph).  Apostrophes are written `\x27`. -/

def divorceBody (firstName address yourName yourCompany yourPhone : String) : String :=
  "Hi " ++ firstName ++ ",\n\nI understand you may be going through some changes right now. If you\x27re considering selling your property at " ++ address ++ ", I\x27d love to help make that process as smooth and stress-free as possible.\n\nWe specialize in quick, fair offers with flexible closing dates that work with your timeline.\n\nWould you be open to a brief conversation this week?\n\nBest regards,\n" ++ yourName ++ "\n" ++ yourCompany ++ "\n" ++ yourPhone ++ "\n\nP.S. Just reply to this email - I\x27ll personally get back to you within 24 hours."

def divorceBodyV2 (firstName address yourName yourCompany yourPhone : String) : String :=
  "Hi " ++ firstName ++ ",\n\nI understand you may be going through some changes right now. If you\x27re considering selling your property at " ++ address ++ ", I\x27d love to help make that process as smooth and stress-free as possible.\n\nWe specialize in quick, fair offers with flexible closing dates that work with your timeline.\n\nWould you be open to a brief conversation this week?\n\nBest regards,\n" ++ yourName ++ "\n" ++ yourCompany ++ "\n" ++ yourPhone

def probateBody (firstName address yourName yourCompany yourPhone : String) : String :=
  "Hi " ++ firstName ++ ",\n\nI wanted to reach out regarding the property at " ++ address ++ ". I specialize in helping families navigate the sale of inherited properties during the probate process.\n\nWe can handle all the details and provide a fair cash offer with a timeline that works for you.\n\nIf you\x27d like to discuss options, I\x27m here to help.\n\nBest regards,\n" ++ yourName ++ "\n" ++ yourCompany ++ "\n" ++ yourPhone

def foreclosureBody (firstName address yourName yourCompany yourPhone : String) : String :=
  "Hi " ++ firstName ++ ",\n\nI noticed there may be some financial challenges with your property at " ++ address ++ ". I want you to know there are options available that could help.\n\nWe work with homeowners to find solutions - whether that\x27s a quick sale to avoid foreclosure or other creative arrangements.\n\nWould you be open to a no-pressure conversation about your options?\n\nBest regards,\n" ++ yourName ++ "\n" ++ yourCompany ++ "\n" ++ yourPhone

def taxlienBody (firstName address yourName yourCompany yourPhone : String) : String :=
  "Hi " ++ firstName ++ ",\n\nI wanted to reach out about your property at " ++ address ++ ". If you\x27re dealing with tax challenges, we may be able to help with a quick, fair solution.\n\nWe\x27ve helped many homeowners in similar situations resolve their property issues.\n\nWould you be open to discussing your options?\n\nBest regards,\n" ++ yourName ++ "\n" ++ yourCompany ++ "\n" ++ yourPhone

def outofstateBody (firstName address yourName yourCompany yourPhone : String) : String :=
  "Hi " ++ firstName ++ ",\n\nI noticed you own property at " ++ address ++ " but live out of state. Managing rental properties from afar can be challenging.\n\nIf you\x27re interested in selling, we specialize in making the process easy for remote owners - handling everything for you.\n\nWould you be interested in discussing a potential sale?\n\nBest regards,\n" ++ yourName ++ "\n" ++ yourCompany ++ "\n" ++ yourPhone

def divorceTemplate : Template :=
  { subject := "We Can Help During This Transition", body := divorceBody }

def divorceTemplateV2 : Template :=
  { subject := "We Can Help During This Transition", body := divorceBodyV2 }

def probateTemplate : Template :=
  { subject := "Assistance with Your Inherited Property", body := probateBody }

def foreclosureTemplate : Template :=
  { subject := "Options Available for Your Property", body := foreclosureBody }

def taxlienTemplate : Template :=
  { subject := "Help with Your Property Situation", body := taxlienBody }

def outofstateTemplate : Template :=
  { subject := "Interested in Your Out-of-State Property", body := outofstateBody }

/-- Own properties of the `EMAIL_TEMPLATES` object literal in
`src/backend/server.js`. -/
def ownTemplate (key : String) : Option Template :=
  if key == "divorce" then some divorceTemplate
  else if key == "probate" then some probateTemplate
  else if key == "foreclosure" then some foreclosureTemplate
  else if key == "taxlien" then some taxlienTemplate
  else if key == "outofstate" then some outofstateTemplate
  else none

/-- Own properties of the `EMAIL_TEMPLATES` object literal in
`src/unnamed/part_000` (same subjects, `divorce` body without the P.S.). -/
def ownTemplateV2 (key : String) : Option Template :=
  if key == "divorce" then some divorceTemplateV2
  else if key == "probate" then some probateTemplate
  else if key == "foreclosure" then some foreclosureTemplate
  else if key == "taxlien" then some taxlienTemplate
  else if key == "outofstate" then some outofstateTemplate
  else none

/-- The string-keyed properties every JavaScript object literal inherits from
`Object.prototype`.  `EMAIL_TEMPLATES[k]` for such `k` yields a truthy
function/object that is not a template. -/
def objectPrototypeProps : List String :=
  ["constructor", "hasOwnProperty", "isPrototypeOf", "propertyIsEnumerable",
   "toLocaleString", "toString", "valueOf", "__proto__",
   "__defineGetter__", "__defineSetter__", "__lookupGetter__", "__lookupSetter__"]

/-- `EMAIL_TEMPLATES[lead.type] || EMAIL_TEMPLATES.outofstate` in `server.js`.
JavaScript bracket lookup on an object literal also finds the inherited
`Object.prototype` members; those values are truthy, so `||` keeps them, and
they are not templates (reading `.subject` gives `undefined`, calling `.body`
throws a `TypeError`).  `none` encodes that case. -/
def templateOrDefault (t : Option String) : Option Template :=
  match t with
  | none => some outofstateTemplate
  | some key =>
    match ownTemplate key with
    | some tm => some tm
    | none =>
      if objectPrototypeProps.contains key then none else some outofstateTemplate

/-- Same lookup against the `src/unnamed/part_000` catalog. -/
def templateOrDefaultV2 (t : Option String) : Option Template :=
  match t with
  | none => some outofstateTemplate
  | some key =>
    match ownTemplateV2 key with
    | some tm => some tm
    | none =>
      if objectPrototypeProps.contains key then none else some outofstateTemplate

/-- `lead.firstName || lead.name?.split(' ')[0] || 'there'`. -/
def derivedFirstName (firstName name : Option String) : String :=
  if truthy firstName then getStr firstName
  else
    match name with
    | none => "there"
    | some n =>
      if jsFirstSpaceToken n == "" then "there" else jsFirstSpaceToken n

/-- A composed message: subject plus fully rendered body. -/
structure Composed where
  subject : String
  body : String
deriving DecidableEq

/-- Renders a template body for a lead:
`template.body(firstName, lead.address || 'your property', ...config)`. -/
def renderBody (tm : Template) (lead : Lead) (cfg : SenderConfig) : String :=
  tm.body (derivedFirstName lead.firstName lead.name)
    (strOr lead.address "your property")
    cfg.yourName cfg.yourCompany cfg.yourPhone

/-- The message-composition part of `sendEmail` (`server.js` lines 151-161):
select `EMAIL_TEMPLATES[lead.type] || EMAIL_TEMPLATES.outofstate`, resolve the
first name, render the body.  The `TypeError` branch is the JavaScript failure
when the lookup produced an inherited `Object.prototype` member. -/
def composeEmail (lead : Lead) (cfg : SenderConfig) : Except String Composed :=
  match templateOrDefault lead.type with
  | none => Except.error "TypeError: template.body is not a function"
  | some tm => Except.ok { subject := tm.subject, body := renderBody tm lead cfg }

/-! ## Delivery outcomes and the orchestrator `sendEmail` (`server.js`) -/

/-- The transport oracle's verdict for one `resend.emails.send` call:
the promise resolves with no error, resolves with an error object, or
rejects (the `catch` branch). -/
inductive SendOutcome where
  | delivered
  | transportError (msg : String)
  | threw (msg : String)
deriving DecidableEq

/-- The result object `sendEmail` resolves with. -/
structure SendResult where
  success : Bool
  email : Option String
  error : Option String
deriving DecidableEq

/-- The log status `sendEmail` records for an outcome. -/
def expectedStatus : SendOutcome → String
  | SendOutcome.delivered => "sent"
  | SendOutcome.transportError _ => "failed"
  | SendOutcome.threw _ => "failed"

/-- Display-name derivation of `logEmail` (`server.js` lines 132-134):
`firstName && lastName ? firstName + " " + lastName : (name || email)`. -/
def logDisplayName (lead : Lead) : Option String :=
  if truthy lead.firstName && truthy lead.lastName then
    some (getStr lead.firstName ++ " " ++ getStr lead.lastName)
  else if truthy lead.name then lead.name
  else lead.email

/-- The row `logEmail` (`server.js` lines 131-149) inserts into `email_log`. -/
def logEmail (lead : Lead) (tm : Template) (status : String) (now : Nat) : LogEntry :=
  { email := lead.email,
    name := logDisplayName lead,
    address := some (strOr lead.address "N/A"),
    type := some (strOr lead.type "N/A"),
    subject := tm.subject,
    sent_at := now,
    status := status }

/-- `sendEmail` (`server.js` lines 151-186): compose, attempt delivery, log the
attempt, return a tagged result.  The value is the result object together with
the `email_log` rows the invocation inserts; `Except.error` is the uncaught
`TypeError` raised before the `try` block when the template lookup returned an
inherited `Object.prototype` member. -/
def sendEmail (lead : Lead) (cfg : SenderConfig) (outcome : SendOutcome) (now : Nat) :
    Except String (SendResult × List LogEntry) :=
  match templateOrDefault lead.type with
  | none => Except.error "TypeError: template.body is not a function"
  | some tm =>
    match outcome with
    | SendOutcome.delivered =>
        Except.ok ({ success := true, email := lead.email, error := none },
          [logEmail lead tm "sent" now])
    | SendOutcome.transportError msg =>
        Except.ok ({ success := false, email := lead.email, error := some msg },
          [logEmail lead tm "failed" now])
    | SendOutcome.threw msg =>
        Except.ok ({ success := false, email := lead.email, error := some msg },
          [logEmail lead tm "failed" now])

/-! ## Bulk send (`POST /api/send-bulk-emails`, `src/unnamed/part_000`) -/

/-- State accumulated by the bulk-send loop.  `attempts` is the trace of leads
for which the loop went past the missing-email guard (so composition, and then
delivery, was attempted for them). -/
structure BulkState where
  sent : Nat
  failed : Nat
  log : List LogEntry
  attempts : List Lead
deriving DecidableEq

/-- Display name of the bulk-send log row:
`` `${lead.firstName || ''} ${lead.lastName || ''}`.trim() || lead.name ``. -/
def bulkLogName (lead : Lead) : Option String :=
  if trimStr (getStr lead.firstName ++ " " ++ getStr lead.lastName) != "" then
    some (trimStr (getStr lead.firstName ++ " " ++ getStr lead.lastName))
  else lead.name

/-- The `email_log` row the bulk-send loop inserts after a successful send
(note: `address` and `type` are stored raw, and only status `"sent"` rows are
ever written on this path). -/
def bulkLogEntry (lead : Lead) (tm : Template) (now : Nat) : LogEntry :=
  { email := lead.email,
    name := bulkLogName lead,
    address := lead.address,
    type := lead.type,
    subject := tm.subject,
    sent_at := now,
    status := "sent" }

/-- One iteration of the bulk-send loop (`part_000` lines 167-203).  A lead
with a falsy email is tallied as failed and skipped; an inherited-template
`TypeError` is thrown while building the envelope inside `try`, so it is
caught and tallied as failed; otherwise the transport outcome decides, and a
log row is written only on success. -/
def bulkStep (deliver : Lead → SendOutcome) (now : Nat) (st : BulkState) (lead : Lead) :
    BulkState :=
  if !truthy lead.email then { st with failed := st.failed + 1 }
  else
    let st2 := { st with attempts := st.attempts ++ [lead] }
    match templateOrDefaultV2 lead.type with
    | none => { st2 with failed := st2.failed + 1 }
    | some tm =>
      match deliver lead with
      | SendOutcome.delivered =>
          { st2 with sent := st2.sent + 1, log := st2.log ++ [bulkLogEntry lead tm now] }
      | SendOutcome.transportError _ => { st2 with failed := st2.failed + 1 }
      | SendOutcome.threw _ => { st2 with failed := st2.failed + 1 }

/-- The whole bulk-send loop over the caller-supplied lead list. -/
def sendBulkEmails (deliver : Lead → SendOutcome) (now : Nat) (leads : List Lead) :
    BulkState :=
  leads.foldl (bulkStep deliver now) { sent := 0, failed := 0, log := [], attempts := [] }

/-! ## Single-lead send handlers (`POST /api/contacts/:id/send-email`) -/

/-- What the handler answers with (beyond its store effects). -/
inductive ApiResponse where
  | notFound
  | crashed (msg : String)
  | payload (r : SendResult)
deriving DecidableEq

/-- `leads.select('*').eq('id', id).single()`. -/
def findLead (db : List Lead) (id : Nat) : Option Lead :=
  db.find? (fun l => l.id == id)

/-- The `server.js` success-path update: set `last_contacted_date` only. -/
def updateLeadSrv (db : List Lead) (id : Nat) (now : Nat) : List Lead :=
  db.map (fun l => if l.id == id then { l with last_contacted_date := some now } else l)

/-- The `part_000` success-path update: set `last_contacted_date` and
`status := 'contacted'`. -/
def updateLeadV2 (db : List Lead) (id : Nat) (now : Nat) : List Lead :=
  db.map (fun l =>
    if l.id == id then { l with last_contacted_date := some now, status := some "contacted" }
    else l)

/-- The `server.js` single-send handler (lines 287-318): fetch the lead, run
`sendEmail`, and update `last_contacted_date` only when `result.success`.
Returns the new lead table, the inserted log rows, and the response. -/
def singleSendSrv (db : List Lead) (id : Nat) (cfg : SenderConfig)
    (outcome : SendOutcome) (now : Nat) : List Lead × List LogEntry × ApiResponse :=
  match findLead db id with
  | none => (db, [], ApiResponse.notFound)
  | some lead =>
    match sendEmail lead cfg outcome now with
    | Except.error m => (db, [], ApiResponse.crashed m)
    | Except.ok (r, logs) =>
      if r.success then (updateLeadSrv db id now, logs, ApiResponse.payload r)
      else (db, logs, ApiResponse.payload r)

/-- The `part_000` single-send handler (lines 227-254 and 611-638): inline
compose and send; on a transport error it returns `{success: false}` without
updating or logging; on success it updates the lead and inserts one
status-`"sent"` log row; a thrown error is caught into `{success: false}`. -/
def singleSendV2 (db : List Lead) (id : Nat) (cfg : SenderConfig)
    (outcome : SendOutcome) (now : Nat) : List Lead × List LogEntry × ApiResponse :=
  match findLead db id with
  | none => (db, [], ApiResponse.notFound)
  | some lead =>
    match templateOrDefaultV2 lead.type with
    | none =>
        (db, [], ApiResponse.payload
          { success := false, email := none,
            error := some "TypeError: template.body is not a function" })
    | some tm =>
      match outcome with
      | SendOutcome.transportError m =>
          (db, [], ApiResponse.payload { success := false, email := none, error := some m })
      | SendOutcome.threw m =>
          (db, [], ApiResponse.payload { success := false, email := none, error := some m })
      | SendOutcome.delivered =>
          (updateLeadV2 db id now,
           [{ email := lead.email, name := lead.name, address := lead.address,
              type := lead.type, subject := tm.subject, sent_at := now, status := "sent" }],
           ApiResponse.payload { success := true, email := lead.email, error := none })

/-! ## Follow-up selection (`GET /api/follow-ups`, `POST /api/send-follow-ups`) -/

/-- The lowercased lead emails:
`new Set((leads || []).map(l => l.email?.toLowerCase()).filter(Boolean))`. -/
def repliedEmails (db : List Lead) : List String :=
  (db.filterMap (fun l => l.email.map jsToLower)).filter (fun s => s != "")

/-- `keyIs l k = true` iff `l` has an email whose lowercasing is `k`. -/
def keyIs (l : LogEntry) (k : String) : Bool :=
  match l.email with
  | none => false
  | some e => jsToLower e == k

/-- A `GET /api/follow-ups` result element: the spread of the kept log entry
(`{...log, email_count}`). -/
structure FollowUpEntry where
  entry : LogEntry
  email_count : Nat
deriving DecidableEq

/-- Key membership in an association list (JS `Map.prototype.has`). -/
def containsKey {β : Type} : List (String × β) → String → Bool
  | [], _ => false
  | p :: rest, k => p.1 == k || containsKey rest k

/-- `emailMap.get(email).email_count++`: bump the count stored at the first
occurrence of `k`. -/
def bumpCount : List (String × FollowUpEntry) → String → List (String × FollowUpEntry)
  | [], _ => []
  | p :: rest, k =>
    if p.1 == k then (p.1, ⟨p.2.entry, p.2.email_count + 1⟩) :: rest
    else p :: bumpCount rest k

/-- One iteration of the `GET /api/follow-ups` grouping loop (`part_000`
lines 497-506): skip rows with a falsy lowercased email or one present in the
lead table; otherwise keep the first row seen per email and count the rest. -/
def fuStep (replied : List String) (m : List (String × FollowUpEntry)) (log : LogEntry) :
    List (String × FollowUpEntry) :=
  match log.email with
  | none => m
  | some e =>
    if jsToLower e == "" || replied.contains (jsToLower e) then m
    else if containsKey m (jsToLower e) then bumpCount m (jsToLower e)
    else m ++ [(jsToLower e, ⟨log, 1⟩)]

/-- `GET /api/follow-ups`: group the (newest-first) log by lowercased email,
excluding lead-table emails, and return the kept entries with their counts
(`Array.from(emailMap.values())`). -/
def followUps (db : List Lead) (logs : List LogEntry) : List FollowUpEntry :=
  (logs.foldl (fuStep (repliedEmails db)) []).map Prod.snd

/-- One iteration of the `POST /api/send-follow-ups` grouping loop (`part_000`
lines 537-543): same skipping, but only the first row per email is kept. -/
def fuStep2 (replied : List String) (m : List (String × LogEntry)) (log : LogEntry) :
    List (String × LogEntry) :=
  match log.email with
  | none => m
  | some e =>
    if jsToLower e == "" || replied.contains (jsToLower e) then m
    else if containsKey m (jsToLower e) then m
    else m ++ [(jsToLower e, log)]

/-- The unreplied contacts `POST /api/send-follow-ups` iterates over. -/
def fuSelect (db : List Lead) (logs : List LogEntry) : List LogEntry :=
  (logs.foldl (fuStep2 (repliedEmails db)) []).map Prod.snd

/-- The follow-up subject: `` `Following up: ${template.subject}` `` where
`template = EMAIL_TEMPLATES[contact.type] || EMAIL_TEMPLATES.outofstate`.
When the lookup produced an inherited `Object.prototype` member, reading
`.subject` gives `undefined` and the template literal stringifies it. -/
def followUpSubjectFor (t : Option String) : String :=
  "Following up: " ++
    (match templateOrDefaultV2 t with
     | some tm => tm.subject
     | none => "undefined")

/-- The literal follow-up body of `POST /api/send-follow-ups`. -/
def followUpBody (firstName addr yourName yourCompany yourPhone : String) : String :=
  "Hi " ++ firstName ++ ",\n\nI wanted to follow up on my previous message about your property at " ++ addr ++ ".\n\nI understand you\x27re busy, but if your situation has changed or you\x27d like to explore your options, I\x27m here to help.\n\nNo pressure at all - just let me know if you\x27d like to chat.\n\nBest regards,\n" ++ yourName ++ "\n" ++ yourCompany ++ "\n" ++ yourPhone

/-- An envelope handed to the transport. -/
structure EmailMessage where
  fromField : String
  toAddr : Option String
  subject : String
  text : String
deriving DecidableEq

/-- State accumulated by the `POST /api/send-follow-ups` loop; `messages` is
the trace of transport calls actually made. -/
structure FollowUpRun where
  sent : Nat
  failed : Nat
  newLog : List LogEntry
  messages : List EmailMessage
deriving DecidableEq

/-- One iteration of the send loop of `POST /api/send-follow-ups` (`part_000`
lines 548-597): per kept contact, build the follow-up envelope, attempt
delivery, and on success insert one status-`"follow-up"` log row. -/
def followUpStep (deliver : LogEntry → SendOutcome) (cfg : SenderConfig) (now : Nat)
    (st : FollowUpRun) (contact : LogEntry) : FollowUpRun :=
  if !truthy contact.email then { st with failed := st.failed + 1 }
  else
    let msg : EmailMessage :=
      { fromField := cfg.yourName ++ " <onboarding@resend.dev>",
        toAddr := contact.email,
        subject := followUpSubjectFor contact.type,
        text := followUpBody (derivedFirstName none contact.name)
          (strOr contact.address "your property")
          cfg.yourName cfg.yourCompany cfg.yourPhone }
    let st2 := { st with messages := st.messages ++ [msg] }
    let row : LogEntry :=
      { email := contact.email, name := contact.name, address := contact.address,
        type := contact.type, subject := followUpSubjectFor contact.type,
        sent_at := now, status := "follow-up" }
    match deliver contact with
    | SendOutcome.delivered =>
        { st2 with sent := st2.sent + 1, newLog := st2.newLog ++ [row] }
    | SendOutcome.transportError _ => { st2 with failed := st2.failed + 1 }
    | SendOutcome.threw _ => { st2 with failed := st2.failed + 1 }

/-- `POST /api/send-follow-ups`: select the unreplied contacts, then run the
send loop over them. -/
def sendFollowUps (db : List Lead) (logs : List LogEntry) (cfg : SenderConfig)
    (deliver : LogEntry → SendOutcome) (now : Nat) : FollowUpRun :=
  (fuSelect db logs).foldl (followUpStep deliver cfg now)
    { sent := 0, failed := 0, newLog := [], messages := [] }

/-- Newest-first order on log rows, as delivered by
`.order('sent_at', { ascending: false })`. -/
def sortedDesc : List LogEntry → Bool
  | [] => true
  | [_] => true
  | a :: b :: rest => b.sent_at ≤ a.sent_at && sortedDesc (b :: rest)

set_option maxRecDepth 100000

/-! ## Concrete instances used by witnesses and counterexamples -/

def cfg0 : SenderConfig := mkSenderConfig none none none

def c1lead : Lead :=
  { id := 1, email := some "a@x.com", firstName := none, lastName := none,
    name := some "Al Paca", address := some "1 Main St", type := some "probate",
    last_contacted_date := none, status := none }

def c1failLead : Lead :=
  { id := 2, email := some "f@x.com", firstName := none, lastName := none,
    name := some "Fay Lure", address := some "2 Oak Ave", type := some "divorce",
    last_contacted_date := none, status := none }

def c2lead : Lead :=
  { id := 3, email := some "a@x.com", firstName := none, lastName := none, name := none,
    address := some "1 Main St", type := some "probate", last_contacted_date := none,
    status := none }

def c2cfg : SenderConfig := mkSenderConfig (some "J. Doe") none none

def c2body : String :=
  probateBody "there" "1 Main St" "J. Doe" "ABC Real Estate" "(302) 922-4238"

def c3lead : Lead :=
  { id := 1, email := some "c@x.com", firstName := some "Cal", lastName := some "Dent",
    name := some "Cal Dent", address := some "9 Elm", type := some "taxlien",
    last_contacted_date := some 11, status := some "new" }

def c6lead : Lead :=
  { id := 6, email := some "t@x.com", firstName := none, lastName := none,
    name := some "A\tB", address := none, type := none,
    last_contacted_date := none, status := none }

def c6wlead : Lead :=
  { id := 7, email := some "j@x.com", firstName := none, lastName := none,
    name := some "John Smith", address := none, type := none,
    last_contacted_date := none, status := none }

def c7lead : Lead :=
  { id := 8, email := some "k@x.com", firstName := none, lastName := none,
    name := some "Kay", address := some "5 Pine", type := some "constructor",
    last_contacted_date := none, status := none }

def c8leadNoEmail : Lead :=
  { id := 9, email := none, firstName := none, lastName := none,
    name := some "No Mail", address := none, type := some "probate",
    last_contacted_date := none, status := none }

def c8leadOk : Lead :=
  { id := 10, email := some "ok@x.com", firstName := some "Okie", lastName := none,
    name := none, address := none, type := some "foreclosure",
    last_contacted_date := none, status := none }

def c9lead : Lead :=
  { id := 11, email := some "b@x.com", firstName := some "", lastName := none,
    name := some " Bob", address := none, type := none,
    last_contacted_date := none, status := none }

def c9wlead : Lead :=
  { id := 12, email := some "n@x.com", firstName := some "", lastName := none,
    name := some "Ann Lee", address := none, type := none,
    last_contacted_date := none, status := none }

def c10log : LogEntry :=
  { email := some "c@x.com", name := some "Cal Dent", address := some "9 Elm",
    type := some "constructor", subject := "s", sent_at := 3, status := "sent" }

def c4log2 : LogEntry :=
  { email := some "b@x.com", name := some "Bea Smith", address := some "2 Oak Ave",
    type := some "probate", subject := "s2", sent_at := 2, status := "sent" }

def c4log1 : LogEntry :=
  { email := some "B@x.com", name := some "Bea Smith", address := some "2 Oak Ave",
    type := some "probate", subject := "s1", sent_at := 1, status := "sent" }

def c5lead : Lead :=
  { id := 13, email := some "B@x.com", firstName := none, lastName := none, name := none,
    address := none, type := none, last_contacted_date := none, status := none }

def c5log : LogEntry :=
  { email := some "c@y.com", name := none, address := none, type := none,
    subject := "s", sent_at := 4, status := "sent" }

/-- Invariant of the `GET /api/follow-ups` grouping loop: after the loop has
consumed the log prefix `seen` with accumulator `m`, the keys of `m` are
distinct nonempty lowercased emails absent from the lead table, each entry
holds the first (hence, on a newest-first log, most recent) row of `seen`
with its key together with the number of such rows, and every eligible row of
`seen` has its key in `m`. -/
structure FoldInv (replied : List String) (seen : List LogEntry)
    (m : List (String × FollowUpEntry)) : Prop where
  nodup : (m.map Prod.fst).Nodup
  key_ne : ∀ p ∈ m, p.1 ≠ ""
  key_not_replied : ∀ p ∈ m, replied.contains p.1 = false
  entry_first : ∀ p ∈ m, seen.find? (fun l => keyIs l p.1) = some p.2.entry
  count_eq : ∀ p ∈ m, p.2.email_count = (seen.filter (fun l => keyIs l p.1)).length
  complete : ∀ l ∈ seen, ∀ e, l.email = some e → jsToLower e ≠ "" →
    replied.contains (jsToLower e) = false → containsKey m (jsToLower e) = true

/-! ## Lemmas about the space-token helpers -/

theorem startsWithChars_takeBeforeSpace :
    ∀ l : List Char, startsWithChars (takeBeforeSpace l) l = true := by
  intro l
  induction l with
  | nil => rfl
  | cons c cs ih =>
    by_cases h : c == ' '
    · simp [takeBeforeSpace, h, startsWithChars]
    · simp [takeBeforeSpace, h, startsWithChars, ih]

theorem space_not_in_takeBeforeSpace :
    ∀ l : List Char, containsChars [' '] (takeBeforeSpace l) = false := by
  intro l
  induction l with
  | nil => rfl
  | cons c cs ih =>
    by_cases h : c == ' '
    · simp [takeBeforeSpace, h]; rfl
    · have h2 : (' ' == c) = false := by
        refine beq_eq_false_iff_ne.mpr ?_
        exact fun he => (beq_eq_false_iff_ne.mp (by simpa using h)) he.symm
      simp [takeBeforeSpace, h, containsChars, startsWithChars, h2, ih]

/-- C6 (amended): for every lead whose `firstName` is unset (falsy), the
composed first name is the prefix of `name` before the first space character —
a genuine prefix of `name` containing no space — when that prefix is nonempty,
and the literal `"there"` when `name` is unset or that prefix is empty. -/
theorem firstName_from_name_space_token (lead : Lead) (h : truthy lead.firstName = false) :
    (lead.name = none → derivedFirstName lead.firstName lead.name = "there") ∧
    (∀ n, lead.name = some n →
      (jsFirstSpaceToken n = "" → derivedFirstName lead.firstName lead.name = "there") ∧
      (jsFirstSpaceToken n ≠ "" →
        derivedFirstName lead.firstName lead.name = jsFirstSpaceToken n) ∧
      strStartsWith n (jsFirstSpaceToken n) = true ∧
      containsChars [' '] (jsFirstSpaceToken n).data = false) := by
  refine ⟨fun hn => by simp [derivedFirstName, h, hn], fun n hn => ⟨?_, ?_, ?_, ?_⟩⟩
  · intro ht; simp [derivedFirstName, h, hn, ht]
  · intro ht; simp [derivedFirstName, h, hn, ht]
  · simp [strStartsWith, jsFirstSpaceToken, startsWithChars_takeBeforeSpace]
  · simp [jsFirstSpaceToken, space_not_in_takeBeforeSpace]

/-- C6 witness: for the lead named "John Smith" with no `firstName`, the
composed first name is "John". -/
theorem firstName_from_name_space_token_witness :
    derivedFirstName c6wlead.firstName c6wlead.name = "John" := by
  have h := ((firstName_from_name_space_token c6wlead (by decide)).2 "John Smith" rfl).2.1
  exact (h (by decide)).trans (by decide)

/-- C6 counterexample: for the lead named "A\tB" (a tab, no space) with no
`firstName`, the code derives the whole string "A\tB", while the first
whitespace-delimited token of the name is "A". -/
theorem firstName_not_whitespace_token :
    derivedFirstName c6lead.firstName c6lead.name = "A\tB" ∧
    firstWhitespaceToken "A\tB" = "A" ∧ ("A\tB" : String) ≠ "A" := by
  refine ⟨by decide, by decide, by decide⟩

/-- C9 (amended): a present-but-empty `firstName` is treated exactly like an
absent one; the derived name is then the prefix of `name` before the first
space when that prefix is nonempty, and `"there"` when `name` is absent or
empty (or, as the counterexample shows, when it begins with a space). -/
theorem firstName_empty_string_is_absent (lead : Lead) (h : lead.firstName = some "") :
    derivedFirstName lead.firstName lead.name = derivedFirstName none lead.name ∧
    (lead.name = none → derivedFirstName lead.firstName lead.name = "there") ∧
    (lead.name = some "" → derivedFirstName lead.firstName lead.name = "there") ∧
    (∀ n, lead.name = some n → jsFirstSpaceToken n ≠ "" →
      derivedFirstName lead.firstName lead.name = jsFirstSpaceToken n) := by
  refine ⟨by rw [h]; simp [derivedFirstName, truthy], ?_, ?_, ?_⟩
  · intro hn; simp [derivedFirstName, h, hn, truthy]
  · intro hn; rw [h, hn]; decide
  · intro n hn ht; simp [derivedFirstName, h, hn, ht, truthy]

/-- C9 witness: `firstName = ""` with name "Ann Lee" derives "Ann". -/
theorem firstName_empty_string_is_absent_witness :
    derivedFirstName c9wlead.firstName c9wlead.name = "Ann" := by
  have h := (firstName_empty_string_is_absent c9wlead rfl).2.2.2 "Ann Lee" rfl (by decide)
  exact h.trans (by decide)

/-- C9 counterexample: for `firstName = ""` and `name = " Bob"` (nonempty,
leading space) the code derives the literal `"there"`, which is neither the
first token of the name under any reading nor covered by the claim's
"name absent or empty" case. -/
theorem firstName_empty_leading_space_name :
    derivedFirstName c9lead.firstName c9lead.name = "there" ∧
    c9lead.name = some " Bob" ∧ (" Bob" : String) ≠ "" ∧
    firstWhitespaceToken " Bob" = "Bob" ∧ jsFirstSpaceToken " Bob" = "" ∧
    ("there" : String) ≠ "Bob" ∧ ("there" : String) ≠ "" := by
  refine ⟨by decide, rfl, by decide, by decide, by decide, by decide, by decide⟩

/-- C2 counterexample: in the claim's scenario the lead has neither
`firstName` nor `name`, so the first-name placeholder resolves to `"there"`
and the composed body opens with the literal greeting "Hi there,". -/
theorem compose_probate_scenario_greeting_there :
    composeEmail c2lead c2cfg =
      Except.ok { subject := "Assistance with Your Inherited Property", body := c2body } ∧
    strStartsWith c2body "Hi there," = true ∧
    derivedFirstName c2lead.firstName c2lead.name = "there" := by
  refine ⟨rfl, by decide, by decide⟩

/-- C2 (amended): the scenario's composed subject is the probate subject, and
the body contains "1 Main St" and "J. Doe" and does not contain the address
placeholder "your property"; the greeting name, however, is the placeholder
`"there"` because the scenario lead carries no name. -/
theorem compose_probate_scenario :
    composeEmail c2lead c2cfg =
      Except.ok { subject := "Assistance with Your Inherited Property", body := c2body } ∧
    strContains c2body "1 Main St" = true ∧
    strContains c2body "J. Doe" = true ∧
    strContains c2body "your property" = false := by
  refine ⟨rfl, by decide, by decide, by decide⟩

/-- C7: evaluating the code at the failing input `lead.type = "constructor"`.
JavaScript property lookup finds the inherited `Object.prototype.constructor`,
which is truthy, so the `|| outofstate` fallback is skipped and composition
throws a `TypeError` instead of selecting the default template.  Ordinary
unknown or absent categories do fall back to the `outofstate` template. -/
theorem composeEmail_constructor_raises :
    composeEmail c7lead cfg0 = Except.error "TypeError: template.body is not a function" ∧
    templateOrDefault (some "unknown-category") = some outofstateTemplate ∧
    templateOrDefault none = some outofstateTemplate := by
  refine ⟨rfl, rfl, rfl⟩

/-- C10: evaluating the code at the failing input: a log entry whose category
is `"constructor"`.  The selected "template" is the inherited
`Object.prototype.constructor`, whose `subject` is `undefined`, so the
follow-up is sent (and logged) with subject "Following up: undefined" rather
than "Following up: " plus the default template's subject. -/
theorem sendFollowUps_constructor_subject :
    (sendFollowUps [] [c10log] cfg0 (fun _ => SendOutcome.delivered) 9).messages.map
        EmailMessage.subject = ["Following up: undefined"] ∧
    (sendFollowUps [] [c10log] cfg0 (fun _ => SendOutcome.delivered) 9).newLog.map
        LogEntry.subject = ["Following up: undefined"] ∧
    followUpSubjectFor (some "constructor") ≠ "Following up: " ++ outofstateTemplate.subject := by
  refine ⟨rfl, rfl, by decide⟩

/-- C1 (amended): the `server.js` orchestrator `sendEmail` — used by its
single-lead send and by the scheduled sweep — writes exactly one log row per
invocation, with status `"sent"` on success and `"failed"` on failure; the
bulk-send loop instead writes exactly one status-`"sent"` row when delivery
succeeds and no row at all when delivery fails. -/
theorem logPolicy_send_paths :
    (∀ lead cfg outcome now r logs,
        sendEmail lead cfg outcome now = Except.ok (r, logs) →
        logs.length = 1 ∧ ∀ entry ∈ logs, entry.status = expectedStatus outcome) ∧
    (∀ (deliver : Lead → SendOutcome) now st lead tm,
        truthy lead.email = true → templateOrDefaultV2 lead.type = some tm →
        (deliver lead = SendOutcome.delivered →
          (bulkStep deliver now st lead).log = st.log ++ [bulkLogEntry lead tm now]) ∧
        (deliver lead ≠ SendOutcome.delivered →
          (bulkStep deliver now st lead).log = st.log)) := by
  constructor
  · intro lead cfg outcome now r logs hsend
    cases htm : templateOrDefault lead.type with
    | none => simp [sendEmail, htm] at hsend
    | some tm =>
      cases outcome <;> simp [sendEmail, htm] at hsend <;> rw [← hsend.2] <;>
        simp [logEmail, expectedStatus]
  · intro deliver now st lead tm he htm
    constructor
    · intro hd; simp [bulkStep, he, htm, hd]
    · intro hd
      cases hdo : deliver lead with
      | delivered => exact absurd hdo hd
      | transportError m => simp [bulkStep, he, htm, hdo]
      | threw m => simp [bulkStep, he, htm, hdo]

/-- C1 witness: a failed transport on the `sendEmail` path still yields
exactly one `"failed"` row, and a successful bulk delivery appends exactly
one `"sent"` row. -/
theorem logPolicy_send_paths_witness :
    ([logEmail c1lead probateTemplate "failed" 3].length = 1 ∧
      ∀ entry ∈ [logEmail c1lead probateTemplate "failed" 3],
        entry.status = expectedStatus (SendOutcome.transportError "x")) ∧
    (sendBulkEmails (fun _ => SendOutcome.delivered) 7 [c1lead]).log =
      [] ++ [bulkLogEntry c1lead probateTemplate 7] := by
  constructor
  · exact logPolicy_send_paths.1 c1lead cfg0 (SendOutcome.transportError "x") 3
      { success := false, email := some "a@x.com", error := some "x" }
      [logEmail c1lead probateTemplate "failed" 3] rfl
  · exact (logPolicy_send_paths.2 (fun _ => SendOutcome.delivered) 7
      { sent := 0, failed := 0, log := [], attempts := [] } c1lead probateTemplate
      (by decide) rfl).1 rfl

/-- C1 counterexample: a bulk-send invocation whose delivery fails writes no
log row at all (the lead is tallied as failed), so the bulk path does not
produce exactly one entry per invocation. -/
theorem bulk_failure_writes_no_log :
    (sendBulkEmails (fun _ => SendOutcome.transportError "boom") 7 [c1failLead]).log = [] ∧
    (sendBulkEmails (fun _ => SendOutcome.transportError "boom") 7 [c1failLead]).failed = 1 ∧
    (sendBulkEmails (fun _ => SendOutcome.transportError "boom") 7 [c1failLead]).log.length ≠ 1 := by
  refine ⟨rfl, rfl, by decide⟩

/-- C3: when the transport returns an error or throws on a single-lead send,
neither handler variant touches the lead table: `last_contacted_date` and
`status` are exactly as before the call. -/
theorem failed_send_preserves_lead (db : List Lead) (id : Nat) (cfg : SenderConfig)
    (outcome : SendOutcome) (now : Nat) (h : outcome ≠ SendOutcome.delivered) :
    (singleSendSrv db id cfg outcome now).1 = db ∧
    (singleSendV2 db id cfg outcome now).1 = db := by
  constructor
  · cases hf : findLead db id with
    | none => simp [singleSendSrv, hf]
    | some lead =>
      cases htm : templateOrDefault lead.type with
      | none => simp [singleSendSrv, hf, sendEmail, htm]
      | some tm =>
        cases outcome with
        | delivered => exact absurd rfl h
        | transportError m => simp [singleSendSrv, hf, sendEmail, htm]
        | threw m => simp [singleSendSrv, hf, sendEmail, htm]
  · cases hf : findLead db id with
    | none => simp [singleSendV2, hf]
    | some lead =>
      cases htm : templateOrDefaultV2 lead.type with
      | none => simp [singleSendV2, hf, htm]
      | some tm =>
        cases outcome with
        | delivered => exact absurd rfl h
        | transportError m => simp [singleSendV2, hf, htm]
        | threw m => simp [singleSendV2, hf, htm]

/-- C3 witness: a concrete one-lead table is untouched by a failing send on
either handler variant. -/
theorem failed_send_preserves_lead_witness :
    (singleSendSrv [c3lead] 1 cfg0 (SendOutcome.transportError "x") 5).1 = [c3lead] ∧
    (singleSendV2 [c3lead] 1 cfg0 (SendOutcome.transportError "x") 5).1 = [c3lead] :=
  failed_send_preserves_lead [c3lead] 1 cfg0 (SendOutcome.transportError "x") 5 (by decide)

/-- Each bulk iteration adds exactly one to `sent + failed`. -/
theorem bulkStep_count (deliver : Lead → SendOutcome) (now : Nat) (st : BulkState)
    (lead : Lead) :
    (bulkStep deliver now st lead).sent + (bulkStep deliver now st lead).failed
      = st.sent + st.failed + 1 := by
  cases he : truthy lead.email with
  | false => simp [bulkStep, he]; omega
  | true =>
    cases htm : templateOrDefaultV2 lead.type with
    | none => simp [bulkStep, he, htm]; omega
    | some tm =>
      cases hd : deliver lead with
      | delivered => simp [bulkStep, he, htm, hd]; omega
      | transportError m => simp [bulkStep, he, htm, hd]; omega
      | threw m => simp [bulkStep, he, htm, hd]; omega

/-- The bulk loop's tallies sum to the initial tallies plus the list length. -/
theorem bulk_foldl_count (deliver : Lead → SendOutcome) (now : Nat) :
    ∀ (leads : List Lead) (st : BulkState),
      (leads.foldl (bulkStep deliver now) st).sent
        + (leads.foldl (bulkStep deliver now) st).failed
        = st.sent + st.failed + leads.length := by
  intro leads
  induction leads with
  | nil => intro st; simp
  | cons x rest ih =>
    intro st
    simp only [List.foldl_cons, List.length_cons]
    rw [ih (bulkStep deliver now st x), bulkStep_count]
    omega

/-- Every lead in the bulk loop's attempt trace has a truthy email. -/
theorem bulk_foldl_attempts (deliver : Lead → SendOutcome) (now : Nat) :
    ∀ (leads : List Lead) (st : BulkState) (l : Lead),
      l ∈ (leads.foldl (bulkStep deliver now) st).attempts →
      l ∈ st.attempts ∨ truthy l.email = true := by
  intro leads
  induction leads with
  | nil => intro st l hl; exact Or.inl hl
  | cons x rest ih =>
    intro st l hl
    rcases ih (bulkStep deliver now st x) l (by simpa using hl) with h | h
    · cases he : truthy x.email with
      | false =>
        have hat : (bulkStep deliver now st x).attempts = st.attempts := by
          simp [bulkStep, he]
        rw [hat] at h
        exact Or.inl h
      | true =>
        have hat : (bulkStep deliver now st x).attempts = st.attempts ++ [x] := by
          cases htm : templateOrDefaultV2 x.type with
          | none => simp [bulkStep, he, htm]
          | some tm =>
            cases hd : deliver x with
            | delivered => simp [bulkStep, he, htm, hd]
            | transportError m => simp [bulkStep, he, htm, hd]
            | threw m => simp [bulkStep, he, htm, hd]
        rw [hat] at h
        rcases List.mem_append.mp h with h2 | h2
        · exact Or.inl h2
        · have hx : l = x := by simpa using h2
          subst hx
          exact Or.inr he
    · exact Or.inr h

/-- C8: a lead with no (or an empty) email address is tallied as failed with
no composition or delivery attempt and no log row; every lead for which an
attempt is made has an email; and `sent + failed` equals the number of leads
in the input list. -/
theorem bulk_accounting :
    (∀ (deliver : Lead → SendOutcome) (now : Nat) (st : BulkState) (lead : Lead),
        truthy lead.email = false →
        bulkStep deliver now st lead = { st with failed := st.failed + 1 }) ∧
    (∀ (deliver : Lead → SendOutcome) (now : Nat) (leads : List Lead),
        (sendBulkEmails deliver now leads).sent + (sendBulkEmails deliver now leads).failed
          = leads.length) ∧
    (∀ (deliver : Lead → SendOutcome) (now : Nat) (leads : List Lead) (lead : Lead),
        lead ∈ (sendBulkEmails deliver now leads).attempts → truthy lead.email = true) := by
  refine ⟨?_, ?_, ?_⟩
  · intro deliver now st lead he
    simp [bulkStep, he]
  · intro deliver now leads
    have h := bulk_foldl_count deliver now leads
      { sent := 0, failed := 0, log := [], attempts := [] }
    simpa [sendBulkEmails] using h
  · intro deliver now leads lead hl
    rcases bulk_foldl_attempts deliver now leads
      { sent := 0, failed := 0, log := [], attempts := [] } lead hl with h | h
    · exact absurd h (List.not_mem_nil lead)
    · exact h

/-- C8 witness: an email-less lead only bumps `failed`; a two-lead list (one
email-less, one with email) tallies `sent + failed = 2`; and a lead appearing
in the attempt trace has a truthy email. -/
theorem bulk_accounting_witness :
    bulkStep (fun _ => SendOutcome.delivered) 7
        { sent := 0, failed := 0, log := [], attempts := [] } c8leadNoEmail
      = { sent := 0, failed := 1, log := [], attempts := [] } ∧
    (sendBulkEmails (fun _ => SendOutcome.delivered) 7 [c8leadNoEmail, c8leadOk]).sent +
      (sendBulkEmails (fun _ => SendOutcome.delivered) 7 [c8leadNoEmail, c8leadOk]).failed
      = 2 ∧
    truthy c8leadOk.email = true := by
  refine ⟨bulk_accounting.1 (fun _ => SendOutcome.delivered) 7
      { sent := 0, failed := 0, log := [], attempts := [] } c8leadNoEmail rfl,
    bulk_accounting.2.1 (fun _ => SendOutcome.delivered) 7 [c8leadNoEmail, c8leadOk],
    bulk_accounting.2.2 (fun _ => SendOutcome.delivered) 7 [c8leadOk] c8leadOk (by decide)⟩

/-! ## Lemmas about the association-list accumulator -/

theorem containsKey_append {β : Type} (m m2 : List (String × β)) (k : String) :
    containsKey (m ++ m2) k = (containsKey m k || containsKey m2 k) := by
  induction m with
  | nil => simp [containsKey]
  | cons p rest ih => simp [containsKey, ih, Bool.or_assoc]

theorem containsKey_eq_false_iff {β : Type} (m : List (String × β)) (k : String) :
    containsKey m k = false ↔ ∀ p ∈ m, p.1 ≠ k := by
  induction m with
  | nil => simp [containsKey]
  | cons p rest ih =>
    simp only [containsKey, Bool.or_eq_false_iff, ih, List.mem_cons]
    constructor
    · rintro ⟨h1, h2⟩ q hq
      rcases hq with rfl | hq
      · exact beq_eq_false_iff_ne.mp h1
      · exact h2 q hq
    · intro h
      refine ⟨beq_eq_false_iff_ne.mpr (h p (Or.inl rfl)), fun q hq => h q (Or.inr hq)⟩

theorem bumpCount_map_fst (m : List (String × FollowUpEntry)) (k : String) :
    (bumpCount m k).map Prod.fst = m.map Prod.fst := by
  induction m with
  | nil => rfl
  | cons p rest ih =>
    by_cases h : p.1 == k
    · simp [bumpCount, h]
    · simp [bumpCount, h, ih]

theorem containsKey_bumpCount (m : List (String × FollowUpEntry)) (k k2 : String) :
    containsKey (bumpCount m k) k2 = containsKey m k2 := by
  induction m with
  | nil => rfl
  | cons p rest ih =>
    by_cases h : p.1 == k
    · simp [bumpCount, h, containsKey]
    · simp [bumpCount, h, containsKey, ih]

/-- Characterization of membership after a count bump, assuming distinct keys:
a member either is an untouched pair with a different key, or is the unique
pair at key `k` with its count incremented. -/
theorem mem_bumpCount (k : String) :
    ∀ (m : List (String × FollowUpEntry)), (m.map Prod.fst).Nodup →
    ∀ q ∈ bumpCount m k,
      (q ∈ m ∧ q.1 ≠ k) ∨
      (∃ p, p ∈ m ∧ p.1 = k ∧ q.1 = k ∧ q.2.entry = p.2.entry ∧
        q.2.email_count = p.2.email_count + 1) := by
  intro m
  induction m with
  | nil => intro _ q hq; simp [bumpCount] at hq
  | cons a rest ih =>
    intro hnd q hq
    rw [List.map_cons] at hnd
    have hnd2 := List.nodup_cons.mp hnd
    by_cases hak : a.1 == k
    · have hbump : bumpCount (a :: rest) k
          = (a.1, ⟨a.2.entry, a.2.email_count + 1⟩) :: rest := by
        simp [bumpCount, hak]
      rw [hbump] at hq
      rcases List.mem_cons.mp hq with h1 | h1
      · right
        refine ⟨a, List.mem_cons_self a rest, eq_of_beq hak, ?_, ?_, ?_⟩
        · rw [h1]; exact eq_of_beq hak
        · rw [h1]
        · rw [h1]
      · left
        refine ⟨List.mem_cons_of_mem a h1, ?_⟩
        intro hqk
        have haq : a.1 = k := eq_of_beq hak
        have : q.1 ∈ rest.map Prod.fst := List.mem_map_of_mem Prod.fst h1
        rw [hqk, ← haq] at this
        exact hnd2.1 this
    · have hbump : bumpCount (a :: rest) k = a :: bumpCount rest k := by
        simp [bumpCount, hak]
      rw [hbump] at hq
      rcases List.mem_cons.mp hq with h1 | h1
      · left
        refine ⟨by rw [h1]; exact List.mem_cons_self a rest, ?_⟩
        rw [h1]
        exact fun he => (by simpa [he] using hak)
      · rcases ih hnd2.2 q h1 with h2 | h2
        · exact Or.inl ⟨List.mem_cons_of_mem a h2.1, h2.2⟩
        · obtain ⟨p, hp, hrest⟩ := h2
          exact Or.inr ⟨p, List.mem_cons_of_mem a hp, hrest⟩

theorem keyIs_eq (log : LogEntry) (e k : String) (hle : log.email = some e) :
    keyIs log k = (jsToLower e == k) := by
  unfold keyIs
  rw [hle]

/-- Extending the consumed prefix by a row that matches no stored key (and
whose own key, if eligible, is already present) preserves the invariant. -/
theorem FoldInv.extend_untouched (replied : List String) (seen : List LogEntry)
    (m : List (String × FollowUpEntry)) (log : LogEntry)
    (h : FoldInv replied seen m)
    (hk : ∀ p ∈ m, keyIs log p.1 = false)
    (hcomp : ∀ e, log.email = some e → jsToLower e ≠ "" →
      replied.contains (jsToLower e) = false → containsKey m (jsToLower e) = true) :
    FoldInv replied (seen ++ [log]) m := by
  refine ⟨h.nodup, h.key_ne, h.key_not_replied, ?_, ?_, ?_⟩
  · intro p hp
    rw [List.find?_append, h.entry_first p hp]
    rfl
  · intro p hp
    rw [List.filter_append]
    have hnil : List.filter (fun l => keyIs l p.1) [log] = [] := by
      simp [hk p hp]
    rw [hnil, List.append_nil]
    exact h.count_eq p hp
  · intro l hl e he hne hnr
    rcases List.mem_append.mp hl with h1 | h1
    · exact h.complete l h1 e he hne hnr
    · have hlog : l = log := by simpa using h1
      subst hlog
      exact hcomp e he hne hnr

/-- One loop iteration preserves the invariant. -/
theorem FoldInv.step (replied : List String) (seen : List LogEntry)
    (m : List (String × FollowUpEntry)) (log : LogEntry)
    (h : FoldInv replied seen m) :
    FoldInv replied (seen ++ [log]) (fuStep replied m log) := by
  unfold fuStep
  cases hle : log.email with
  | none =>
    exact h.extend_untouched replied seen m log (fun p hp => by simp [keyIs, hle])
      (fun e he => by rw [hle] at he; cases he)
  | some e =>
    show FoldInv replied (seen ++ [log])
      (if (jsToLower e == "" || replied.contains (jsToLower e)) = true then m
       else if containsKey m (jsToLower e) = true then bumpCount m (jsToLower e)
       else m ++ [(jsToLower e, ⟨log, 1⟩)])
    by_cases hskip : (jsToLower e == "" || replied.contains (jsToLower e)) = true
    · rw [if_pos hskip]
      apply h.extend_untouched
      · intro p hp
        simp only [keyIs, hle]
        rcases Bool.or_eq_true_iff.mp hskip with hc | hc
        · have he0 : jsToLower e = "" := eq_of_beq hc
          rw [he0]
          exact beq_eq_false_iff_ne.mpr (Ne.symm (h.key_ne p hp))
        · refine beq_eq_false_iff_ne.mpr (Ne.symm ?_)
          intro hpe
          rw [← hpe] at hc
          rw [h.key_not_replied p hp] at hc
          cases hc
      · intro e2 he2 hne2 hnr2
        rw [hle] at he2
        have hee : e = e2 := Option.some.inj he2
        subst hee
        rcases Bool.or_eq_true_iff.mp hskip with hc | hc
        · exact absurd (eq_of_beq hc) hne2
        · rw [hnr2] at hc; cases hc
    · rw [if_neg hskip]
      rw [Bool.not_eq_true] at hskip
      have hor := Bool.or_eq_false_iff.mp hskip
      have hne : jsToLower e ≠ "" := beq_eq_false_iff_ne.mp hor.1
      have hnr : replied.contains (jsToLower e) = false := hor.2
      by_cases hck : containsKey m (jsToLower e) = true
      · rw [if_pos hck]
        refine ⟨?_, ?_, ?_, ?_, ?_, ?_⟩
        · rw [bumpCount_map_fst]; exact h.nodup
        · intro q hq
          rcases mem_bumpCount (jsToLower e) m h.nodup q hq with ⟨hqm, _⟩ | ⟨p, _, _, hqk, _, _⟩
          · exact h.key_ne q hqm
          · rw [hqk]; exact hne
        · intro q hq
          rcases mem_bumpCount (jsToLower e) m h.nodup q hq with ⟨hqm, _⟩ | ⟨p, _, _, hqk, _, _⟩
          · exact h.key_not_replied q hqm
          · rw [hqk]; exact hnr
        · intro q hq
          rcases mem_bumpCount (jsToLower e) m h.nodup q hq with
            ⟨hqm, hqne⟩ | ⟨p, hpm, hpk, hqk, hqe, _⟩
          · rw [List.find?_append, h.entry_first q hqm]; rfl
          · have hfp := h.entry_first p hpm
            rw [hpk] at hfp
            rw [hqk, List.find?_append, hfp, hqe]
            rfl
        · intro q hq
          rcases mem_bumpCount (jsToLower e) m h.nodup q hq with
            ⟨hqm, hqne⟩ | ⟨p, hpm, hpk, hqk, _, hqc⟩
          · rw [List.filter_append]
            have hnil : List.filter (fun l => keyIs l q.1) [log] = [] := by
              have hkf : keyIs log q.1 = false := by
                rw [keyIs_eq log e q.1 hle]
                exact beq_eq_false_iff_ne.mpr (Ne.symm hqne)
              simp [hkf]
            rw [hnil, List.append_nil]
            exact h.count_eq q hqm
          · have hcp := h.count_eq p hpm
            rw [hpk] at hcp
            rw [hqk, hqc, hcp, List.filter_append]
            have hone : List.filter (fun l => keyIs l (jsToLower e)) [log] = [log] := by
              simp [keyIs, hle]
            rw [hone]
            simp
        · intro l hl e2 he2 hne2 hnr2
          rw [containsKey_bumpCount]
          rcases List.mem_append.mp hl with h1 | h1
          · exact h.complete l h1 e2 he2 hne2 hnr2
          · have hlog : l = log := by simpa using h1
            subst hlog
            rw [hle] at he2
            have hee : e = e2 := Option.some.inj he2
            rw [← hee]
            exact hck
      · rw [if_neg hck]
        have hckf : containsKey m (jsToLower e) = false := by
          revert hck; cases containsKey m (jsToLower e) <;> simp
        have hkne : ∀ p ∈ m, p.1 ≠ jsToLower e := (containsKey_eq_false_iff m _).mp hckf
        have hnoseen : ∀ x ∈ seen, ¬ keyIs x (jsToLower e) = true := by
          intro x hx hkx
          have : containsKey m (jsToLower e) = true := by
            cases hxe : x.email with
            | none => rw [keyIs, hxe] at hkx; cases hkx
            | some e3 =>
              rw [keyIs, hxe] at hkx
              have he3 : jsToLower e3 = jsToLower e := eq_of_beq hkx
              have := h.complete x hx e3 hxe (he3 ▸ hne) (he3 ▸ hnr)
              rwa [he3] at this
          rw [hckf] at this; cases this
        refine ⟨?_, ?_, ?_, ?_, ?_, ?_⟩
        · rw [List.map_append]
          refine h.nodup.append (by simp) ?_
          intro a ha hb
          have hak : a = jsToLower e := by simpa using hb
          obtain ⟨p, hpm, hpa⟩ := List.mem_map.mp ha
          exact hkne p hpm (by rw [hpa, hak])
        · intro q hq
          rcases List.mem_append.mp hq with h1 | h1
          · exact h.key_ne q h1
          · have hq1 : q = (jsToLower e, ⟨log, 1⟩) := by simpa using h1
            rw [hq1]; exact hne
        · intro q hq
          rcases List.mem_append.mp hq with h1 | h1
          · exact h.key_not_replied q h1
          · have hq1 : q = (jsToLower e, ⟨log, 1⟩) := by simpa using h1
            rw [hq1]; exact hnr
        · intro q hq
          rcases List.mem_append.mp hq with h1 | h1
          · have hqk : keyIs log q.1 = false := by
              simp only [keyIs, hle]
              exact beq_eq_false_iff_ne.mpr (Ne.symm (hkne q h1))
            rw [List.find?_append, h.entry_first q h1]
            rfl
          · have hq1 : q = (jsToLower e, ⟨log, 1⟩) := by simpa using h1
            rw [hq1]
            rw [List.find?_append, List.find?_eq_none.mpr hnoseen]
            have hkl : keyIs log (jsToLower e) = true := by simp [keyIs, hle]
            simp [hkl]
        · intro q hq
          rcases List.mem_append.mp hq with h1 | h1
          · rw [List.filter_append]
            have hnil : List.filter (fun l => keyIs l q.1) [log] = [] := by
              have hkf : keyIs log q.1 = false := by
                rw [keyIs_eq log e q.1 hle]
                exact beq_eq_false_iff_ne.mpr (Ne.symm (hkne q h1))
              simp [hkf]
            rw [hnil, List.append_nil]
            exact h.count_eq q h1
          · have hq1 : q = (jsToLower e, ⟨log, 1⟩) := by simpa using h1
            rw [hq1, List.filter_append]
            have hnil : List.filter (fun l => keyIs l (jsToLower e)) seen = [] := by
              rw [List.filter_eq_nil_iff]
              exact hnoseen
            have hone : List.filter (fun l => keyIs l (jsToLower e)) [log] = [log] := by
              simp [keyIs, hle]
            rw [hnil, hone]
            rfl
        · intro l hl e2 he2 hne2 hnr2
          rw [containsKey_append]
          rcases List.mem_append.mp hl with h1 | h1
          · rw [h.complete l h1 e2 he2 hne2 hnr2]
            rfl
          · have hlog : l = log := by simpa using h1
            rw [hlog, hle] at he2
            have hee : e2 = e := (Option.some.inj he2).symm
            rw [hee]
            have hck1 : containsKey [(jsToLower e, (⟨log, 1⟩ : FollowUpEntry))] (jsToLower e)
                = true := by
              simp [containsKey]
            rw [hck1]
            simp

/-- The invariant holds vacuously before any log row is consumed. -/
theorem FoldInv.initial (replied : List String) : FoldInv replied [] [] :=
  ⟨List.nodup_nil, by simp, by simp, by simp, by simp, by simp⟩

/-- Running the loop over `logs` preserves the invariant, consuming `logs`. -/
theorem FoldInv.fold (replied : List String) :
    ∀ (logs seen : List LogEntry) (m : List (String × FollowUpEntry)),
      FoldInv replied seen m →
      FoldInv replied (seen ++ logs) (logs.foldl (fuStep replied) m) := by
  intro logs
  induction logs with
  | nil => intro seen m h; simpa using h
  | cons x rest ih =>
    intro seen m h
    have h2 := FoldInv.step replied seen m x h
    have h3 := ih (seen ++ [x]) (fuStep replied m x) h2
    rw [List.append_assoc] at h3
    simpa using h3

/-- A newest-first list stays newest-first after its head, and the head is
newest. -/
theorem sortedDesc_cons (x : LogEntry) (xs : List LogEntry)
    (h : sortedDesc (x :: xs) = true) :
    sortedDesc xs = true ∧ ∀ y ∈ xs, y.sent_at ≤ x.sent_at := by
  induction xs generalizing x with
  | nil => exact ⟨rfl, by simp⟩
  | cons b bs ih =>
    have h1 : b.sent_at ≤ x.sent_at ∧ sortedDesc (b :: bs) = true := by
      simpa [sortedDesc, Bool.and_eq_true] using h
    obtain ⟨hs2, hall⟩ := ih b h1.2
    refine ⟨h1.2, ?_⟩
    intro y hy
    rcases List.mem_cons.mp hy with rfl | hy2
    · exact h1.1
    · exact le_trans (hall y hy2) h1.1

/-- On a newest-first list, the first row satisfying `p` has the maximal
timestamp among all rows satisfying `p`. -/
theorem find?_sorted_max (p : LogEntry → Bool) :
    ∀ (logs : List LogEntry), sortedDesc logs = true → ∀ a, logs.find? p = some a →
      ∀ b ∈ logs, p b = true → b.sent_at ≤ a.sent_at := by
  intro logs
  induction logs with
  | nil => intro _ a ha; simp at ha
  | cons x xs ih =>
    intro hs a ha b hb hpb
    obtain ⟨hsx, hall⟩ := sortedDesc_cons x xs hs
    by_cases hpx : p x = true
    · have hax : a = x := by
        rw [List.find?_cons_of_pos xs hpx] at ha
        exact (Option.some.inj ha).symm
      subst hax
      rcases List.mem_cons.mp hb with rfl | hb2
      · exact le_refl _
      · exact hall b hb2
    · have ha2 : xs.find? p = some a := by
        rwa [List.find?_cons_of_neg xs hpx] at ha
      rcases List.mem_cons.mp hb with rfl | hb2
      · exact absurd hpb hpx
      · exact ih hsx a ha2 b hb2 hpb

/-- C4: on a newest-first log, every entry returned by `GET /api/follow-ups`
is a row of the log; its `email_count` equals the total number of log rows
whose lowercased email equals the entry's lowercased email across the full
log; and its fields come from a row whose `sent_at` is maximal among those
rows (the first such row in newest-first order). -/
theorem followUps_count_and_latest (db : List Lead) (logs : List LogEntry)
    (hs : sortedDesc logs = true) :
    ∀ fu ∈ followUps db logs,
      fu.entry ∈ logs ∧
      ∀ e, fu.entry.email = some e →
        fu.email_count = (logs.filter (fun l => keyIs l (jsToLower e))).length ∧
        ∀ l ∈ logs, keyIs l (jsToLower e) = true → l.sent_at ≤ fu.entry.sent_at := by
  intro fu hfu
  have hinv := FoldInv.fold (repliedEmails db) logs [] [] (FoldInv.initial _)
  rw [List.nil_append] at hinv
  obtain ⟨p, hp, hpe⟩ := List.mem_map.mp hfu
  have hfind := hinv.entry_first p hp
  have hcount := hinv.count_eq p hp
  have hmem : p.2.entry ∈ logs := List.mem_of_find?_eq_some hfind
  have hkey : keyIs p.2.entry p.1 = true := by
    have h0 := List.find?_some hfind
    simpa using h0
  rw [← hpe]
  refine ⟨hmem, ?_⟩
  intro e he
  have hpk : jsToLower e = p.1 := by
    rw [keyIs_eq p.2.entry e p.1 he] at hkey
    exact eq_of_beq hkey
  rw [hpk]
  constructor
  · exact hcount
  · intro l hl hkl
    exact find?_sorted_max (fun l2 => keyIs l2 p.1) logs hs p.2.entry hfind l hl hkl

/-- C4 witness: two rows for the same address (different case) with
timestamps 2 and 1, no lead rows: the single returned entry is the
timestamp-2 row, its count is 2, and both rows' timestamps are bounded by
its `sent_at`. -/
theorem followUps_count_and_latest_witness :
    (⟨c4log2, 2⟩ : FollowUpEntry).entry ∈ [c4log2, c4log1] ∧
    ∀ e, (⟨c4log2, 2⟩ : FollowUpEntry).entry.email = some e →
      (⟨c4log2, 2⟩ : FollowUpEntry).email_count
        = ([c4log2, c4log1].filter (fun l => keyIs l (jsToLower e))).length ∧
      ∀ l ∈ [c4log2, c4log1], keyIs l (jsToLower e) = true →
        l.sent_at ≤ (⟨c4log2, 2⟩ : FollowUpEntry).entry.sent_at :=
  followUps_count_and_latest [] [c4log2, c4log1] (by decide) ⟨c4log2, 2⟩ (by decide)

/-- C5: no entry returned by `GET /api/follow-ups` carries an email address
that, compared by lowercasing, occurs among the lead table's emails. -/
theorem followUps_excludes_lead_emails (db : List Lead) (logs : List LogEntry) :
    ∀ fu ∈ followUps db logs, ∀ lead ∈ db, ∀ e le,
      fu.entry.email = some e → lead.email = some le →
      jsToLower le ≠ jsToLower e := by
  intro fu hfu lead hlead e le he hle heq
  have hinv := FoldInv.fold (repliedEmails db) logs [] [] (FoldInv.initial _)
  rw [List.nil_append] at hinv
  obtain ⟨p, hp, hpe⟩ := List.mem_map.mp hfu
  rw [← hpe] at he
  have hkey : keyIs p.2.entry p.1 = true := by
    have h0 := List.find?_some (hinv.entry_first p hp)
    simpa using h0
  have hkne : p.1 ≠ "" := hinv.key_ne p hp
  have hknr : (repliedEmails db).contains p.1 = false := hinv.key_not_replied p hp
  have hpk : jsToLower e = p.1 := by
    rw [keyIs_eq p.2.entry e p.1 he] at hkey
    exact eq_of_beq hkey
  have hmem : jsToLower le ∈ repliedEmails db := by
    refine List.mem_filter.mpr ⟨?_, ?_⟩
    · exact List.mem_filterMap.mpr ⟨lead, hlead, by rw [hle]; rfl⟩
    · have : jsToLower le ≠ "" := by rw [heq, hpk]; exact hkne
      simpa using this
  have hcontains : (repliedEmails db).contains p.1 = true := by
    rw [← hpk, ← heq]
    exact List.elem_eq_true_of_mem hmem
  rw [hknr] at hcontains
  cases hcontains

/-- C5 witness: with a lead `B@x.com` and a log row `c@y.com`, the returned
contact's address differs from the lead's address after lowercasing. -/
theorem followUps_excludes_lead_emails_witness :
    jsToLower "B@x.com" ≠ jsToLower "c@y.com" :=
  followUps_excludes_lead_emails [c5lead] [c5log] ⟨c5log, 1⟩ (by decide) c5lead
    (by decide) "c@y.com" "B@x.com" rfl rfl
